import Mathlib

/-!
Verification development for the Identity Protocol (IDP) core:
a shallow embedding of `idp-core` (lib.rs, crypto.rs) and the CLI's
persistence behaviour, with theorems checking the natural-language
specification against the code.

Bytes are modelled as `Nat` (values < 256), byte strings as `List Nat`,
and the YAML documents produced by `serde_yaml` as a structured value
type `Yaml` (serialization is modelled at the value level: field order,
omission of empty sequences, defaulting of missing ones).
-/

namespace Idp

/-- Standard base64 alphabet used by `data_encoding::BASE64` (RFC 4648, with padding). -/
def base64Alphabet : List Char :=
  "ABCDEFGHIJKLMNOPQRSTUVWXYZabcdefghijklmnopqrstuvwxyz0123456789+/".data

/-- The character for a 6-bit group. -/
def b64c (n : Nat) : Char := base64Alphabet.getD n 'A'

/-- Encode a byte list in base64 (RFC 4648 standard alphabet, padded),
as `data_encoding::BASE64.encode` does. -/
def base64EncodeChars : List Nat → List Char
  | [] => []
  | [b1] => [b64c (b1 / 4), b64c (b1 % 4 * 16), '=', '=']
  | [b1, b2] => [b64c (b1 / 4), b64c (b1 % 4 * 16 + b2 / 16), b64c (b2 % 16 * 4), '=']
  | b1 :: b2 :: b3 :: rest =>
    b64c (b1 / 4) :: b64c (b1 % 4 * 16 + b2 / 16) :: b64c (b2 % 16 * 4 + b3 / 64) ::
      b64c (b3 % 64) :: base64EncodeChars rest

/-- Base64 encoding of a byte list, as a string. -/
def base64Encode (bs : List Nat) : String := String.mk (base64EncodeChars bs)

/-- UTF-8 encoding of one character (code point), as bytes. -/
def utf8Char (c : Char) : List Nat :=
  let n := c.toNat
  if n < 0x80 then [n]
  else if n < 0x800 then [0xC0 + n / 64, 0x80 + n % 64]
  else if n < 0x10000 then [0xE0 + n / 4096, 0x80 + n / 64 % 64, 0x80 + n % 64]
  else [0xF0 + n / 262144, 0x80 + n / 4096 % 64, 0x80 + n / 64 % 64, 0x80 + n % 64]

/-- UTF-8 byte encoding of a string (`str::as_bytes` in Rust). -/
def utf8Encode (s : String) : List Nat :=
  s.data.foldr (fun c acc => utf8Char c ++ acc) []

/-! ### SHA-256 (FIPS 180-4), over byte lists, words as `Nat` mod 2^32 -/

/-- Addition modulo 2^32. -/
def add32 (a b : Nat) : Nat := (a + b) % 4294967296

/-- Bitwise exclusive-or computed bit by bit over a fuel of `k` bits
(structurally recursive, unlike `Nat.xor`, so that proofs can evaluate it). -/
def xorBits : Nat → Nat → Nat → Nat
  | 0, _, _ => 0
  | k + 1, a, b => xorBits k (a / 2) (b / 2) * 2 + (a + b) % 2

/-- Bitwise conjunction computed bit by bit over a fuel of `k` bits. -/
def andBits : Nat → Nat → Nat → Nat
  | 0, _, _ => 0
  | k + 1, a, b => andBits k (a / 2) (b / 2) * 2 + a % 2 * (b % 2)

/-- Exclusive-or of 32-bit words. -/
def xor32 (a b : Nat) : Nat := xorBits 32 a b

/-- Conjunction of 32-bit words. -/
def and32 (a b : Nat) : Nat := andBits 32 a b

/-- Complement of a 32-bit word. -/
def not32 (a : Nat) : Nat := xor32 a 4294967295

/-- Right rotation of a 32-bit word by `k` bits. -/
def rotr32 (k x : Nat) : Nat := x / 2 ^ k + x % 2 ^ k * 2 ^ (32 - k) % 4294967296

/-- Right shift of a 32-bit word. -/
def shr32 (k x : Nat) : Nat := x / 2 ^ k

/-- Bitwise choice function of SHA-256. -/
def ch32 (x y z : Nat) : Nat := xor32 (and32 x y) (and32 (not32 x) z)

/-- Bitwise majority function of SHA-256. -/
def maj32 (x y z : Nat) : Nat := xor32 (xor32 (and32 x y) (and32 x z)) (and32 y z)

/-- Big sigma-0 of SHA-256. -/
def bigS0 (x : Nat) : Nat := xor32 (xor32 (rotr32 2 x) (rotr32 13 x)) (rotr32 22 x)

/-- Big sigma-1 of SHA-256. -/
def bigS1 (x : Nat) : Nat := xor32 (xor32 (rotr32 6 x) (rotr32 11 x)) (rotr32 25 x)

/-- Small sigma-0 of SHA-256. -/
def smallS0 (x : Nat) : Nat := xor32 (xor32 (rotr32 7 x) (rotr32 18 x)) (shr32 3 x)

/-- Small sigma-1 of SHA-256. -/
def smallS1 (x : Nat) : Nat := xor32 (xor32 (rotr32 17 x) (rotr32 19 x)) (shr32 10 x)

/-- The 64 SHA-256 round constants (FIPS 180-4, in decimal). -/
def shaK : List Nat :=
  [1116352408, 1899447441, 3049323471, 3921009573, 961987163,
   1508970993, 2453635748, 2870763221, 3624381080, 310598401,
   607225278, 1426881987, 1925078388, 2162078206, 2614888103,
   3248222580, 3835390401, 4022224774, 264347078, 604807628,
   770255983, 1249150122, 1555081692, 1996064986, 2554220882,
   2821834349, 2952996808, 3210313671, 3336571891, 3584528711,
   113926993, 338241895, 666307205, 773529912, 1294757372,
   1396182291, 1695183700, 1986661051, 2177026350, 2456956037,
   2730485921, 2820302411, 3259730800, 3345764771, 3516065817,
   3600352804, 4094571909, 275423344, 430227734, 506948616,
   659060556, 883997877, 958139571, 1322822218, 1537002063,
   1747873779, 1955562222, 2024104815, 2227730452, 2361852424,
   2428436474, 2756734187, 3204031479, 3329325298]

/-- The initial SHA-256 hash state (FIPS 180-4, in decimal). -/
def shaH0 : List Nat :=
  [1779033703, 3144134277, 1013904242, 2773480762, 1359893119,
   2600822924, 528734635, 1541459225]

/-- Pad a message per SHA-256: append 0x80, zeros to 56 mod 64, then the
bit length as 8 big-endian bytes. -/
def shaPad (bs : List Nat) : List Nat :=
  let l := bs.length
  let zeros := (64 + 55 - l % 64) % 64
  let bitLen := l * 8
  bs ++ 0x80 :: List.replicate zeros 0 ++
    [bitLen / 2 ^ 56 % 256, bitLen / 2 ^ 48 % 256, bitLen / 2 ^ 40 % 256, bitLen / 2 ^ 32 % 256,
     bitLen / 2 ^ 24 % 256, bitLen / 2 ^ 16 % 256, bitLen / 2 ^ 8 % 256, bitLen % 256]

/-- Group bytes into big-endian 32-bit words. -/
def bytesToWords : List Nat → List Nat
  | a :: b :: c :: d :: rest => (a * 16777216 + b * 65536 + c * 256 + d) :: bytesToWords rest
  | _ => []

/-- Extend a 16-word block schedule by `n` further words. -/
def extendSchedule (ws : List Nat) : Nat → List Nat
  | 0 => ws
  | n + 1 =>
    let done := extendSchedule ws n
    let t := done.length
    done ++ [add32 (add32 (smallS1 (done.getD (t - 2) 0)) (done.getD (t - 7) 0))
               (add32 (smallS0 (done.getD (t - 15) 0)) (done.getD (t - 16) 0))]

/-- One round of the SHA-256 compression loop. -/
def shaRound (st : List Nat) (kw : Nat × Nat) : List Nat :=
  match st with
  | [a, b, c, d, e, f, g, h] =>
    let t1 := add32 (add32 (add32 h (bigS1 e)) (add32 (ch32 e f g) kw.1)) kw.2
    let t2 := add32 (bigS0 a) (maj32 a b c)
    [add32 t1 t2, a, b, c, add32 d t1, e, f, g]
  | st => st

/-- Compress one 16-word block into the running hash state. -/
def shaCompress (h : List Nat) (block : List Nat) : List Nat :=
  let w := extendSchedule block 48
  let st := (shaK.zip w).foldl shaRound h
  List.zipWith add32 h st

/-- Fold all 16-word blocks of the padded message into the hash state. -/
def shaBlocks (h : List Nat) : List Nat → List Nat
  | w0 :: w1 :: w2 :: w3 :: w4 :: w5 :: w6 :: w7 :: w8 :: w9 :: w10 :: w11 :: w12 :: w13 :: w14
      :: w15 :: rest =>
    shaBlocks (shaCompress h [w0, w1, w2, w3, w4, w5, w6, w7, w8, w9, w10, w11, w12, w13, w14, w15])
      rest
  | _ => h

/-- SHA-256 digest of a byte list, as 32 big-endian bytes
(`ring::digest::digest(&digest::SHA256, _)`). -/
def sha256 (bs : List Nat) : List Nat :=
  (shaBlocks shaH0 (bytesToWords (shaPad bs))).foldr
    (fun w acc => w / 16777216 % 256 :: w / 65536 % 256 :: w / 256 % 256 :: w % 256 :: acc) []

/-! ### Data model (structs of `idp-core/src/lib.rs`) -/

/-- A public key entry of `system.public_keys` (lib.rs `PublicKey`). -/
structure PublicKey where
  key_id : String
  algorithm : String
  value : String
  status : String
  deriving Repr, DecidableEq

/-- The `identity` block (lib.rs `IdentityBlock`). -/
structure IdentityBlock where
  id : String
  version : String
  schema_url : String
  created_at : String
  updated_at : String
  deriving Repr, DecidableEq

/-- The `system` block (lib.rs `SystemBlock`). -/
structure SystemBlock where
  public_keys : List PublicKey
  deriving Repr, DecidableEq

/-- The `core` block (lib.rs `CoreBlock`). -/
structure CoreBlock where
  name : String
  bio : String
  deriving Repr, DecidableEq

/-- A credential entry (lib.rs `Credential`); `expires_at` is optional. -/
structure Credential where
  claim : String
  issued_by : String
  issued_at : String
  expires_at : Option String
  proof : String
  deriving Repr, DecidableEq

/-- The signer reference of a proof (lib.rs `Signer`). -/
structure Signer where
  idp_id : String
  key_id : String
  deriving Repr, DecidableEq

/-- One signature component of a proof (lib.rs `SignatureComponent`). -/
structure SignatureComponent where
  algorithm : String
  value : String
  deriving Repr, DecidableEq

/-- A proof entry (lib.rs `Proof`); the `proof_type` field serializes as `type`. -/
structure ProofEntry where
  proof_id : String
  proof_type : String
  claim_hash : String
  signed_by : Signer
  signature : List SignatureComponent
  deriving Repr, DecidableEq

/-- The consequence branches of a contract (lib.rs `Consequence`). -/
structure Consequence where
  on_success : String
  on_failure : String
  deriving Repr, DecidableEq

/-- A contract entry (lib.rs `Contract`). -/
structure Contract where
  contract_id : String
  status : String
  parties : List String
  terms : String
  consequence : Consequence
  deriving Repr, DecidableEq

/-- One reputation history event (lib.rs `ReputationEvent`); `change` is an `i64`. -/
structure ReputationEvent where
  event : String
  change : Int
  timestamp : String
  deriving Repr, DecidableEq

/-- A reputation ledger entry (lib.rs `Reputation`); `value` is an `i64`. -/
structure Reputation where
  score_name : String
  value : Int
  history : List ReputationEvent
  deriving Repr, DecidableEq

/-- A consent grant entry (lib.rs `Consent`). -/
structure Consent where
  granted_to : String
  fields : List String
  expires_at : String
  purpose : String
  deriving Repr, DecidableEq

/-- The top-level IDP document (lib.rs `Identity`). -/
structure Identity where
  identity : IdentityBlock
  system : SystemBlock
  core : CoreBlock
  credentials : List Credential
  proofs : List ProofEntry
  contracts : List Contract
  reputation : List Reputation
  consent : List Consent
  deriving Repr, DecidableEq

/-! ### Key generation and construction (crypto.rs, lib.rs `Identity::new`) -/

/-- Result of key generation (crypto.rs `GeneratedKeyPair`): the public part
and the raw PKCS#8 private-key bytes. -/
structure GeneratedKeyPair where
  public_key : PublicKey
  private_key_bytes : List Nat
  deriving Repr, DecidableEq

/-- Key generation (crypto.rs `generate_ed25519_keypair`). The external
entropy source and `ring`'s Ed25519 key derivation are modelled by taking
the generated PKCS#8 bytes and the raw public-key bytes as inputs; the
function builds the `PublicKey` record exactly as the source does:
base64-encoded value, fixed `key_id`, algorithm `Ed25519`, status `active`. -/
def generate_ed25519_keypair (pkcs8Bytes publicKeyBytes : List Nat) : GeneratedKeyPair :=
  { public_key :=
      { key_id := "root-key-01"
        algorithm := "Ed25519"
        value := base64Encode publicKeyBytes
        status := "active" }
    private_key_bytes := pkcs8Bytes }

/-- Constructor (lib.rs `Identity::new`): generates the keypair, derives the
id by hashing the *encoded* public-key string, uses the placeholder
timestamp, and builds the document with all trust sequences empty. Returns
the document together with the private-key bytes. -/
def Identity.new (name bio : String) (pkcs8Bytes publicKeyBytes : List Nat) :
    Identity × List Nat :=
  let key_pair := generate_ed25519_keypair pkcs8Bytes publicKeyBytes
  let public_key := key_pair.public_key
  let private_key_bytes := key_pair.private_key_bytes
  let public_key_hash := sha256 (utf8Encode public_key.value)
  let id := "idp:key:sha256:" ++ base64Encode public_key_hash
  let now_iso := "2024-01-01T00:00:00Z"
  let new_identity : Identity :=
    { identity :=
        { id := id
          version := "0.2.1"
          schema_url := "https://idp.org/schemas/v0.2.1"
          created_at := now_iso
          updated_at := now_iso }
      system := { public_keys := [public_key] }
      core := { name := name, bio := bio }
      credentials := []
      proofs := []
      contracts := []
      reputation := []
      consent := [] }
  (new_identity, private_key_bytes)

/-! ### Serialization model (serde_yaml at the value level) -/

/-- A structured YAML value: strings, integers, sequences, mappings.
Serialization (`serde_yaml::to_string`) and deserialization
(`serde_yaml::from_str`) are modelled at this level, which captures
field order, omission and defaulting while abstracting from the
textual YAML surface syntax. -/
inductive Yaml where
  | str : String → Yaml
  | int : Int → Yaml
  | seq : List Yaml → Yaml
  | map : List (String × Yaml) → Yaml

/-- Serialize a `PublicKey` (serde derive: fields in declaration order). -/
def pubKeyToYaml (k : PublicKey) : Yaml :=
  .map [("key_id", .str k.key_id), ("algorithm", .str k.algorithm),
        ("value", .str k.value), ("status", .str k.status)]

/-- Serialize the `identity` block. -/
def identityBlockToYaml (b : IdentityBlock) : Yaml :=
  .map [("id", .str b.id), ("version", .str b.version), ("schema_url", .str b.schema_url),
        ("created_at", .str b.created_at), ("updated_at", .str b.updated_at)]

/-- Serialize the `system` block. -/
def systemBlockToYaml (b : SystemBlock) : Yaml :=
  .map [("public_keys", .seq (b.public_keys.map pubKeyToYaml))]

/-- Serialize the `core` block. -/
def coreBlockToYaml (b : CoreBlock) : Yaml :=
  .map [("name", .str b.name), ("bio", .str b.bio)]

/-- Serialize a credential; `expires_at` is skipped when `none`
(serde attribute `skip_serializing_if = Option::is_none`). -/
def credentialToYaml (c : Credential) : Yaml :=
  .map ([("claim", .str c.claim), ("issued_by", .str c.issued_by),
         ("issued_at", .str c.issued_at)] ++
        (match c.expires_at with
         | some e => [("expires_at", .str e)]
         | none => []) ++
        [("proof", .str c.proof)])

/-- Serialize a signer reference. -/
def signerToYaml (s : Signer) : Yaml :=
  .map [("idp_id", .str s.idp_id), ("key_id", .str s.key_id)]

/-- Serialize a signature component. -/
def sigCompToYaml (s : SignatureComponent) : Yaml :=
  .map [("algorithm", .str s.algorithm), ("value", .str s.value)]

/-- Serialize a proof entry; `proof_type` serializes under the key `type`. -/
def proofToYaml (p : ProofEntry) : Yaml :=
  .map [("proof_id", .str p.proof_id), ("type", .str p.proof_type),
        ("claim_hash", .str p.claim_hash), ("signed_by", signerToYaml p.signed_by),
        ("signature", .seq (p.signature.map sigCompToYaml))]

/-- Serialize a consequence block. -/
def consequenceToYaml (c : Consequence) : Yaml :=
  .map [("on_success", .str c.on_success), ("on_failure", .str c.on_failure)]

/-- Serialize a contract entry. -/
def contractToYaml (c : Contract) : Yaml :=
  .map [("contract_id", .str c.contract_id), ("status", .str c.status),
        ("parties", .seq (c.parties.map Yaml.str)), ("terms", .str c.terms),
        ("consequence", consequenceToYaml c.consequence)]

/-- Serialize a reputation history event. -/
def repEventToYaml (e : ReputationEvent) : Yaml :=
  .map [("event", .str e.event), ("change", .int e.change), ("timestamp", .str e.timestamp)]

/-- Serialize a reputation ledger entry. -/
def reputationToYaml (r : Reputation) : Yaml :=
  .map [("score_name", .str r.score_name), ("value", .int r.value),
        ("history", .seq (r.history.map repEventToYaml))]

/-- Serialize a consent grant. -/
def consentToYaml (c : Consent) : Yaml :=
  .map [("granted_to", .str c.granted_to), ("fields", .seq (c.fields.map Yaml.str)),
        ("expires_at", .str c.expires_at), ("purpose", .str c.purpose)]

/-- Serialize a document (serde derive on lib.rs `Identity`): top-level
fields in declaration order; each of the five trust-artifact sequences is
omitted when empty (`skip_serializing_if = Vec::is_empty`). -/
def toYaml (d : Identity) : Yaml :=
  .map ([("identity", identityBlockToYaml d.identity),
         ("system", systemBlockToYaml d.system),
         ("core", coreBlockToYaml d.core)] ++
        (if d.credentials.isEmpty then []
         else [("credentials", .seq (d.credentials.map credentialToYaml))]) ++
        (if d.proofs.isEmpty then []
         else [("proofs", .seq (d.proofs.map proofToYaml))]) ++
        (if d.contracts.isEmpty then []
         else [("contracts", .seq (d.contracts.map contractToYaml))]) ++
        (if d.reputation.isEmpty then []
         else [("reputation", .seq (d.reputation.map reputationToYaml))]) ++
        (if d.consent.isEmpty then []
         else [("consent", .seq (d.consent.map consentToYaml))]))

/-- The list of keys of a top-level YAML mapping. -/
def yamlKeys : Yaml → List String
  | .map kvs => kvs.map Prod.fst
  | _ => []

/-! ### Deserialization model (serde derive semantics for these structs:
required fields must be present with the right type, `Option` fields
default to `none`, `#[serde(default)]` sequences default to empty, and
unknown fields are ignored — none of the structs carries
`deny_unknown_fields`). A failed parse is `none`. -/

/-- Look up the first binding of a key in a YAML mapping's entry list. -/
def lookupKV (kvs : List (String × Yaml)) (n : String) : Option Yaml :=
  match kvs with
  | [] => none
  | (k, v) :: rest => if k = n then some v else lookupKV rest n

/-- Read a required string field. -/
def reqStr (kvs : List (String × Yaml)) (n : String) : Option String :=
  match lookupKV kvs n with
  | some (.str s) => some s
  | _ => none

/-- Read a required integer field. -/
def reqInt (kvs : List (String × Yaml)) (n : String) : Option Int :=
  match lookupKV kvs n with
  | some (.int i) => some i
  | _ => none

/-- Read an optional string field (`Option<String>`): missing means `none`. -/
def optStr (kvs : List (String × Yaml)) (n : String) : Option (Option String) :=
  match lookupKV kvs n with
  | none => some none
  | some (.str s) => some (some s)
  | _ => none

/-- Parse every element of a list, failing when any element fails. -/
def parseAll (p : β → Option α) : List β → Option (List α)
  | [] => some []
  | x :: xs =>
    match p x with
    | some a => (parseAll p xs).map (fun l => a :: l)
    | none => none

/-- Read a required sequence field, parsing each element. -/
def reqSeq (kvs : List (String × Yaml)) (n : String) (p : Yaml → Option α) :
    Option (List α) :=
  match lookupKV kvs n with
  | some (.seq ys) => parseAll p ys
  | _ => none

/-- Read a `#[serde(default)]` sequence field: missing means empty. -/
def defSeq (kvs : List (String × Yaml)) (n : String) (p : Yaml → Option α) :
    Option (List α) :=
  match lookupKV kvs n with
  | none => some []
  | some (.seq ys) => parseAll p ys
  | _ => none

/-- Parse a YAML string scalar. -/
def strFromYaml : Yaml → Option String
  | .str s => some s
  | _ => none

/-- Parse a `PublicKey`. -/
def pubKeyFromYaml : Yaml → Option PublicKey
  | .map kvs => do
    let key_id ← reqStr kvs "key_id"
    let algorithm ← reqStr kvs "algorithm"
    let value ← reqStr kvs "value"
    let status ← reqStr kvs "status"
    pure { key_id, algorithm, value, status }
  | _ => none

/-- Parse the `identity` block. -/
def identityBlockFromYaml : Yaml → Option IdentityBlock
  | .map kvs => do
    let id ← reqStr kvs "id"
    let version ← reqStr kvs "version"
    let schema_url ← reqStr kvs "schema_url"
    let created_at ← reqStr kvs "created_at"
    let updated_at ← reqStr kvs "updated_at"
    pure { id, version, schema_url, created_at, updated_at }
  | _ => none

/-- Parse the `system` block. -/
def systemBlockFromYaml : Yaml → Option SystemBlock
  | .map kvs => do
    let public_keys ← reqSeq kvs "public_keys" pubKeyFromYaml
    pure { public_keys }
  | _ => none

/-- Parse the `core` block. -/
def coreBlockFromYaml : Yaml → Option CoreBlock
  | .map kvs => do
    let name ← reqStr kvs "name"
    let bio ← reqStr kvs "bio"
    pure { name, bio }
  | _ => none

/-- Parse a credential. -/
def credentialFromYaml : Yaml → Option Credential
  | .map kvs => do
    let claim ← reqStr kvs "claim"
    let issued_by ← reqStr kvs "issued_by"
    let issued_at ← reqStr kvs "issued_at"
    let expires_at ← optStr kvs "expires_at"
    let proof ← reqStr kvs "proof"
    pure { claim, issued_by, issued_at, expires_at, proof }
  | _ => none

/-- Parse a signer reference. -/
def signerFromYaml : Yaml → Option Signer
  | .map kvs => do
    let idp_id ← reqStr kvs "idp_id"
    let key_id ← reqStr kvs "key_id"
    pure { idp_id, key_id }
  | _ => none

/-- Parse a signature component. -/
def sigCompFromYaml : Yaml → Option SignatureComponent
  | .map kvs => do
    let algorithm ← reqStr kvs "algorithm"
    let value ← reqStr kvs "value"
    pure { algorithm, value }
  | _ => none

/-- Parse a proof entry (the `type` key populates `proof_type`). -/
def proofFromYaml : Yaml → Option ProofEntry
  | .map kvs => do
    let proof_id ← reqStr kvs "proof_id"
    let proof_type ← reqStr kvs "type"
    let claim_hash ← reqStr kvs "claim_hash"
    let signed_by ← (lookupKV kvs "signed_by").bind signerFromYaml
    let signature ← reqSeq kvs "signature" sigCompFromYaml
    pure { proof_id, proof_type, claim_hash, signed_by, signature }
  | _ => none

/-- Parse a consequence block. -/
def consequenceFromYaml : Yaml → Option Consequence
  | .map kvs => do
    let on_success ← reqStr kvs "on_success"
    let on_failure ← reqStr kvs "on_failure"
    pure { on_success, on_failure }
  | _ => none

/-- Parse a contract entry. -/
def contractFromYaml : Yaml → Option Contract
  | .map kvs => do
    let contract_id ← reqStr kvs "contract_id"
    let status ← reqStr kvs "status"
    let parties ← reqSeq kvs "parties" strFromYaml
    let terms ← reqStr kvs "terms"
    let consequence ← (lookupKV kvs "consequence").bind consequenceFromYaml
    pure { contract_id, status, parties, terms, consequence }
  | _ => none

/-- Parse a reputation history event. -/
def repEventFromYaml : Yaml → Option ReputationEvent
  | .map kvs => do
    let event ← reqStr kvs "event"
    let change ← reqInt kvs "change"
    let timestamp ← reqStr kvs "timestamp"
    pure { event, change, timestamp }
  | _ => none

/-- Parse a reputation ledger entry. -/
def reputationFromYaml : Yaml → Option Reputation
  | .map kvs => do
    let score_name ← reqStr kvs "score_name"
    let value ← reqInt kvs "value"
    let history ← reqSeq kvs "history" repEventFromYaml
    pure { score_name, value, history }
  | _ => none

/-- Parse a consent grant. -/
def consentFromYaml : Yaml → Option Consent
  | .map kvs => do
    let granted_to ← reqStr kvs "granted_to"
    let fields ← reqSeq kvs "fields" strFromYaml
    let expires_at ← reqStr kvs "expires_at"
    let purpose ← reqStr kvs "purpose"
    pure { granted_to, fields, expires_at, purpose }
  | _ => none

/-- Parse a whole document (serde derive on lib.rs `Identity`):
`identity`, `system`, `core` are required; the five trust-artifact
sequences default to empty when missing; unknown top-level fields are
ignored. -/
def fromYaml : Yaml → Option Identity
  | .map kvs => do
    let identity ← (lookupKV kvs "identity").bind identityBlockFromYaml
    let system ← (lookupKV kvs "system").bind systemBlockFromYaml
    let core ← (lookupKV kvs "core").bind coreBlockFromYaml
    let credentials ← defSeq kvs "credentials" credentialFromYaml
    let proofs ← defSeq kvs "proofs" proofFromYaml
    let contracts ← defSeq kvs "contracts" contractFromYaml
    let reputation ← defSeq kvs "reputation" reputationFromYaml
    let consent ← defSeq kvs "consent" consentFromYaml
    pure { identity, system, core, credentials, proofs, contracts, reputation, consent }
  | _ => none

/-- Load (lib.rs `Identity::load_from_file`) modelled on file contents
already read: deserialize and return the document, or the deserializer's
error. No validation step exists in the source. -/
def loadModel (v : Yaml) : Except String Identity :=
  match fromYaml v with
  | some d => .ok d
  | none => .error "deserialization error"

/-! ### Validator (spec §3 / §4.2; no validator exists in the sources) -/

/-- Sum of the `change` fields of a reputation history. -/
def historySum (h : List ReputationEvent) : Int :=
  h.foldl (fun acc e => acc + e.change) 0

/-- Lexicographic order on character lists. -/
def charListLe : List Char → List Char → Bool
  | [], _ => true
  | _ :: _, [] => false
  | a :: as, b :: bs =>
    if a.toNat < b.toNat then true
    else if b.toNat < a.toNat then false
    else charListLe as bs

/-- Lexicographic string comparison; on ISO-8601 UTC timestamps this is
chronological order. -/
def strLe (a b : String) : Bool := charListLe a.data b.data

/-- Modelled from the spec: the Validator of §4.2 is absent from the
sources; this checks every statically checkable invariant of §3 and
returns the complete list of violations. Invariant 2/3: `public_keys`
non-empty and `id` equal to the derivation from the first (root) key's
encoded value; invariant 3: unique `key_id`s; invariant 4:
`created_at ≤ updated_at`; invariant 5: each reputation `value` equals
the sum of its history `change`s; invariant 6: contract `parties`
non-empty; invariant 7: each proof's signer `key_id` exists in
`system.public_keys`. -/
def validate (d : Identity) : List String :=
  (match d.system.public_keys with
   | [] => ["system.public_keys is empty"]
   | root :: _ =>
     if d.identity.id = "idp:key:sha256:" ++ base64Encode (sha256 (utf8Encode root.value))
     then [] else ["identity.id does not match the root key derivation"]) ++
  (if (d.system.public_keys.map PublicKey.key_id).Nodup then []
   else ["duplicate key_id in system.public_keys"]) ++
  (if strLe d.identity.created_at d.identity.updated_at then []
   else ["created_at is after updated_at"]) ++
  d.reputation.filterMap (fun r =>
    if r.value = historySum r.history then none
    else some ("reputation value does not equal history sum: " ++ r.score_name)) ++
  d.contracts.filterMap (fun c =>
    if c.parties.isEmpty then some ("contract has no parties: " ++ c.contract_id) else none) ++
  d.proofs.filterMap (fun p =>
    if p.signed_by.key_id ∈ d.system.public_keys.map PublicKey.key_id then none
    else some ("proof signer key not found: " ++ p.proof_id))

/-! ### Filesystem model for `save_to_file` -/

/-- A filesystem operation performed by the persistence code. -/
inductive FsOp where
  | create : String → FsOp
  | write : String → Yaml → FsOp

/-- The path an operation touches. -/
def FsOp.path : FsOp → String
  | .create p => p
  | .write p _ => p

/-- The observable state of one file. -/
inductive FileState where
  | absent : FileState
  | empty : FileState
  | content : Yaml → FileState

/-- Apply one operation to a filesystem (paths to file states):
`File::create` truncates the file to empty, `write_all` fills it. -/
def applyOp (fs : String → FileState) : FsOp → String → FileState
  | .create p => fun q => if q = p then .empty else fs q
  | .write p v => fun q => if q = p then .content v else fs q

/-- Apply a list of operations in order. -/
def applyOps (fs : String → FileState) (ops : List FsOp) : String → FileState :=
  ops.foldl applyOp fs

/-- The filesystem operations of lib.rs `Identity::save_to_file`:
serialize (pure), then `File::create(path)`, then `write_all`. Both
operations target the destination path directly; no temporary file is
involved. -/
def saveEvents (d : Identity) (path : String) : List FsOp :=
  [.create path, .write path (toYaml d)]

/-! ### Path mutator (spec §4.3; the CLI `set` command is an unimplemented stub) -/

/-- Failure modes of the path mutator (spec §4.3 / §7). -/
inductive SetError where
  | pathNotFound : SetError
  | typeMismatch : SetError
  | immutableField : SetError
  | validationFailed : List String → SetError
  deriving Repr, DecidableEq

/-- One path segment: an identifier with an optional index. -/
structure Segment where
  name : String
  index : Option Nat
  deriving Repr, DecidableEq

/-- Split a character list on a separator character (like `String.splitOn`
for one-character separators, but structurally recursive). -/
def splitOnChar (c : Char) : List Char → List (List Char)
  | [] => [[]]
  | x :: xs =>
    let r := splitOnChar c xs
    if x = c then [] :: r
    else
      match r with
      | h :: t => (x :: h) :: t
      | [] => [[x]]

/-- Parse a non-empty digit string into a number. -/
def digitsToNat : List Char → Option Nat
  | [] => none
  | cs =>
    cs.foldl
      (fun acc c =>
        acc.bind (fun a =>
          if 48 ≤ c.toNat ∧ c.toNat ≤ 57 then some (a * 10 + (c.toNat - 48)) else none))
      (some 0)

/-- Parse one segment per the grammar
`segment := identifier ("[" integer "]")?`. -/
def parseSegment (s : List Char) : Option Segment :=
  match splitOnChar '[' s with
  | [n] => if n = [] then none else some ⟨String.mk n, none⟩
  | [n, rest] =>
    if n = [] then none
    else
      match splitOnChar ']' rest with
      | [digits, []] => (digitsToNat digits).map (fun i => ⟨String.mk n, some i⟩)
      | _ => none
  | _ => none

/-- Parse a dotted path per the grammar `path := segment ("." segment)*`. -/
def parsePath (p : String) : Option (List Segment) :=
  parseAll parseSegment (splitOnChar '.' p.data)

/-- Modify the element at an index, or fail with `pathNotFound` when the
index is out of bounds. -/
def modifyAtE (l : List α) (i : Nat) (f : α → Except SetError α) :
    Except SetError (List α) :=
  match l, i with
  | [], _ => .error .pathNotFound
  | x :: xs, 0 => (f x).map (· :: xs)
  | x :: xs, n + 1 => (modifyAtE xs n f).map (x :: ·)

/-- Update one string field of a credential. -/
def credUpdate (f v : String) (c : Credential) : Except SetError Credential :=
  match f with
  | "claim" => .ok { c with claim := v }
  | "issued_by" => .ok { c with issued_by := v }
  | "issued_at" => .ok { c with issued_at := v }
  | "expires_at" => .ok { c with expires_at := some v }
  | "proof" => .ok { c with proof := v }
  | _ => .error .pathNotFound

/-- Update one field of a proof entry addressed by the remaining segments. -/
def proofUpdate (segs : List Segment) (v : String) (p : ProofEntry) :
    Except SetError ProofEntry :=
  match segs with
  | [⟨"proof_id", none⟩] => .ok { p with proof_id := v }
  | [⟨"type", none⟩] => .ok { p with proof_type := v }
  | [⟨"claim_hash", none⟩] => .ok { p with claim_hash := v }
  | [⟨"signed_by", none⟩, ⟨"idp_id", none⟩] =>
    .ok { p with signed_by := { p.signed_by with idp_id := v } }
  | [⟨"signed_by", none⟩, ⟨"key_id", none⟩] =>
    .ok { p with signed_by := { p.signed_by with key_id := v } }
  | [⟨"signature", some j⟩, ⟨"algorithm", none⟩] =>
    (modifyAtE p.signature j (fun s => .ok { s with algorithm := v })).map
      (fun l => { p with signature := l })
  | [⟨"signature", some j⟩, ⟨"value", none⟩] =>
    (modifyAtE p.signature j (fun s => .ok { s with value := v })).map
      (fun l => { p with signature := l })
  | _ => .error .pathNotFound

/-- Update one field of a contract addressed by the remaining segments. -/
def contractUpdate (segs : List Segment) (v : String) (c : Contract) :
    Except SetError Contract :=
  match segs with
  | [⟨"contract_id", none⟩] => .ok { c with contract_id := v }
  | [⟨"status", none⟩] => .ok { c with status := v }
  | [⟨"terms", none⟩] => .ok { c with terms := v }
  | [⟨"parties", some j⟩] =>
    (modifyAtE c.parties j (fun _ => .ok v)).map (fun l => { c with parties := l })
  | [⟨"consequence", none⟩, ⟨"on_success", none⟩] =>
    .ok { c with consequence := { c.consequence with on_success := v } }
  | [⟨"consequence", none⟩, ⟨"on_failure", none⟩] =>
    .ok { c with consequence := { c.consequence with on_failure := v } }
  | _ => .error .pathNotFound

/-- Update one field of a reputation entry addressed by the remaining
segments; `value` and `change` are integer fields, so a non-integer
value is a `typeMismatch`. -/
def reputationUpdate (segs : List Segment) (v : String) (r : Reputation) :
    Except SetError Reputation :=
  match segs with
  | [⟨"score_name", none⟩] => .ok { r with score_name := v }
  | [⟨"value", none⟩] =>
    match v.toInt? with
    | some n => .ok { r with value := n }
    | none => .error .typeMismatch
  | [⟨"history", some j⟩, ⟨"event", none⟩] =>
    (modifyAtE r.history j (fun e => .ok { e with event := v })).map
      (fun l => { r with history := l })
  | [⟨"history", some j⟩, ⟨"change", none⟩] =>
    match v.toInt? with
    | some n =>
      (modifyAtE r.history j (fun e => .ok { e with change := n })).map
        (fun l => { r with history := l })
    | none => .error .typeMismatch
  | [⟨"history", some j⟩, ⟨"timestamp", none⟩] =>
    (modifyAtE r.history j (fun e => .ok { e with timestamp := v })).map
      (fun l => { r with history := l })
  | _ => .error .pathNotFound

/-- Update one field of a consent grant addressed by the remaining segments. -/
def consentUpdate (segs : List Segment) (v : String) (c : Consent) :
    Except SetError Consent :=
  match segs with
  | [⟨"granted_to", none⟩] => .ok { c with granted_to := v }
  | [⟨"expires_at", none⟩] => .ok { c with expires_at := v }
  | [⟨"purpose", none⟩] => .ok { c with purpose := v }
  | [⟨"fields", some j⟩] =>
    (modifyAtE c.fields j (fun _ => .ok v)).map (fun l => { c with fields := l })
  | _ => .error .pathNotFound

/-- Resolve parsed path segments against the document tree and apply the
value. `identity.id` and `identity.created_at` are immutable; every path
into `system.public_keys` is immutable (key lifecycle changes go through
the key engine). Unknown segments are `pathNotFound`; a path stopping at
a non-leaf block is `typeMismatch`. -/
def setRaw (d : Identity) (segs : List Segment) (v : String) :
    Except SetError Identity :=
  match segs with
  | [⟨"identity", none⟩, ⟨"id", none⟩] => .error .immutableField
  | [⟨"identity", none⟩, ⟨"created_at", none⟩] => .error .immutableField
  | [⟨"identity", none⟩, ⟨"version", none⟩] =>
    .ok { d with identity := { d.identity with version := v } }
  | [⟨"identity", none⟩, ⟨"schema_url", none⟩] =>
    .ok { d with identity := { d.identity with schema_url := v } }
  | [⟨"identity", none⟩, ⟨"updated_at", none⟩] =>
    .ok { d with identity := { d.identity with updated_at := v } }
  | ⟨"system", none⟩ :: ⟨"public_keys", _⟩ :: _ => .error .immutableField
  | [⟨"system", none⟩] => .error .typeMismatch
  | [⟨"identity", none⟩] => .error .typeMismatch
  | [⟨"core", none⟩] => .error .typeMismatch
  | [⟨"core", none⟩, ⟨"name", none⟩] =>
    .ok { d with core := { d.core with name := v } }
  | [⟨"core", none⟩, ⟨"bio", none⟩] =>
    .ok { d with core := { d.core with bio := v } }
  | ⟨"credentials", some i⟩ :: [⟨f, none⟩] =>
    (modifyAtE d.credentials i (credUpdate f v)).map (fun l => { d with credentials := l })
  | ⟨"proofs", some i⟩ :: rest =>
    (modifyAtE d.proofs i (proofUpdate rest v)).map (fun l => { d with proofs := l })
  | ⟨"contracts", some i⟩ :: rest =>
    (modifyAtE d.contracts i (contractUpdate rest v)).map (fun l => { d with contracts := l })
  | ⟨"reputation", some i⟩ :: rest =>
    (modifyAtE d.reputation i (reputationUpdate rest v)).map
      (fun l => { d with reputation := l })
  | ⟨"consent", some i⟩ :: rest =>
    (modifyAtE d.consent i (consentUpdate rest v)).map (fun l => { d with consent := l })
  | _ => .error .pathNotFound

/-- Modelled from the spec: the Path Mutator `set` of §4.3 is absent from
the sources (the CLI `Set` command is a stub that performs no mutation).
Parse the path, refuse protected fields with `immutableField`, apply the
value with the typed resolution of §4.3, advance `updated_at` to the
current time, and re-validate, rolling back (by returning the error and
discarding the mutated copy) when validation fails. -/
def set (d : Identity) (path value now : String) : Except SetError Identity :=
  match parsePath path with
  | none => .error .pathNotFound
  | some segs =>
    match setRaw d segs value with
    | .error e => .error e
    | .ok d' =>
      let d'' := { d' with identity := { d'.identity with updated_at := now } }
      match validate d'' with
      | [] => .ok d''
      | vs => .error (.validationFailed vs)

/-! ### Concrete documents used as evaluation inputs -/

/-- A concrete raw public key (one zero byte), kept tiny so hash
computations evaluate quickly. -/
def wpub : List Nat := [0]

/-- A concrete document built by the constructor. -/
def wdoc : Identity := (Identity.new "Alice" "Builder" [1, 2, 3] wpub).1

/-- The canonical top-level field order of one spec section. -/
def topLevelKeys : List String :=
  ["identity", "system", "core", "credentials", "proofs", "contracts", "reputation", "consent"]

/-- The serialized form of a document whose reputation entry claims value
100 while its history sums to 80; every other invariant holds. -/
def badRepYaml : Yaml :=
  .map
    [("identity", .map
       [("id", .str "idp:key:sha256:WuIVIz/96Xs3c0UXTqUrZPbEEwNptxT8RK6lIchDR6M="),
        ("version", .str "0.2.1"),
        ("schema_url", .str "https://idp.org/schemas/v0.2.1"),
        ("created_at", .str "2024-01-01T00:00:00Z"),
        ("updated_at", .str "2024-01-01T00:00:00Z")]),
     ("system", .map
       [("public_keys", .seq
          [.map [("key_id", .str "root-key-01"), ("algorithm", .str "Ed25519"),
                 ("value", .str "AA=="), ("status", .str "active")]])]),
     ("core", .map [("name", .str "Alice"), ("bio", .str "Builder")]),
     ("reputation", .seq
       [.map [("score_name", .str "karma"), ("value", .int 100),
              ("history", .seq
                [.map [("event", .str "helped"), ("change", .int 80),
                       ("timestamp", .str "2024-01-01T00:00:00Z")]])]])]

/-- The document `badRepYaml` deserializes to. -/
def badRepDoc : Identity :=
  { identity :=
      { id := "idp:key:sha256:WuIVIz/96Xs3c0UXTqUrZPbEEwNptxT8RK6lIchDR6M="
        version := "0.2.1"
        schema_url := "https://idp.org/schemas/v0.2.1"
        created_at := "2024-01-01T00:00:00Z"
        updated_at := "2024-01-01T00:00:00Z" }
    system := { public_keys := [⟨"root-key-01", "Ed25519", "AA==", "active"⟩] }
    core := { name := "Alice", bio := "Builder" }
    credentials := []
    proofs := []
    contracts := []
    reputation := [⟨"karma", 100, [⟨"helped", 80, "2024-01-01T00:00:00Z"⟩]⟩]
    consent := [] }

/-- A serialized `identity` block for a minimal document. -/
def minIdentityYaml : Yaml :=
  .map [("id", .str "idp:key:sha256:WuIVIz/96Xs3c0UXTqUrZPbEEwNptxT8RK6lIchDR6M="),
        ("version", .str "0.2.1"),
        ("schema_url", .str "https://idp.org/schemas/v0.2.1"),
        ("created_at", .str "2024-01-01T00:00:00Z"),
        ("updated_at", .str "2024-01-01T00:00:00Z")]

/-- A serialized `system` block for a minimal document. -/
def minSystemYaml : Yaml :=
  .map [("public_keys", .seq
    [.map [("key_id", .str "root-key-01"), ("algorithm", .str "Ed25519"),
           ("value", .str "AA=="), ("status", .str "active")]])]

/-- A serialized `core` block for a minimal document. -/
def minCoreYaml : Yaml :=
  .map [("name", .str "Alice"), ("bio", .str "Builder")]

/-- The top-level entries of a minimal document: the three required
blocks, none of the five optional sequences. -/
def minEntries : List (String × Yaml) :=
  [("identity", minIdentityYaml), ("system", minSystemYaml), ("core", minCoreYaml)]

/-- The document the minimal entries deserialize to. -/
def minDoc : Identity :=
  { identity :=
      { id := "idp:key:sha256:WuIVIz/96Xs3c0UXTqUrZPbEEwNptxT8RK6lIchDR6M="
        version := "0.2.1"
        schema_url := "https://idp.org/schemas/v0.2.1"
        created_at := "2024-01-01T00:00:00Z"
        updated_at := "2024-01-01T00:00:00Z" }
    system := { public_keys := [⟨"root-key-01", "Ed25519", "AA==", "active"⟩] }
    core := { name := "Alice", bio := "Builder" }
    credentials := []
    proofs := []
    contracts := []
    reputation := []
    consent := [] }

/-- A filesystem whose destination file holds a prior document. -/
def fsPrior : String → FileState :=
  fun q => if q = "my.idp" then .content (.str "prior document") else .absent

/-! ### Helper lemmas -/

theorem parseAll_map_some (p : β → Option α) (g : α → β)
    (h : ∀ x, p (g x) = some x) (l : List α) : parseAll p (l.map g) = some l := by
  induction l with
  | nil => rfl
  | cons x xs ih => simp [parseAll, h, ih]

theorem pubKeyFromYaml_toYaml (k : PublicKey) : pubKeyFromYaml (pubKeyToYaml k) = some k := by
  obtain ⟨a, b, c, d⟩ := k
  simp [pubKeyFromYaml, pubKeyToYaml, reqStr, lookupKV]

theorem identityBlockFromYaml_toYaml (b : IdentityBlock) :
    identityBlockFromYaml (identityBlockToYaml b) = some b := by
  obtain ⟨a, c, d, e, f⟩ := b
  simp [identityBlockFromYaml, identityBlockToYaml, reqStr, lookupKV]

theorem systemBlockFromYaml_toYaml (b : SystemBlock) :
    systemBlockFromYaml (systemBlockToYaml b) = some b := by
  obtain ⟨ks⟩ := b
  simp [systemBlockFromYaml, systemBlockToYaml, reqSeq, lookupKV,
    parseAll_map_some pubKeyFromYaml pubKeyToYaml pubKeyFromYaml_toYaml]

theorem coreBlockFromYaml_toYaml (b : CoreBlock) :
    coreBlockFromYaml (coreBlockToYaml b) = some b := by
  obtain ⟨n, bi⟩ := b
  simp [coreBlockFromYaml, coreBlockToYaml, reqStr, lookupKV]

theorem credentialFromYaml_toYaml (c : Credential) :
    credentialFromYaml (credentialToYaml c) = some c := by
  obtain ⟨a, b, d, e, f⟩ := c
  cases e <;>
    simp [credentialFromYaml, credentialToYaml, reqStr, optStr, lookupKV]

theorem signerFromYaml_toYaml (s : Signer) : signerFromYaml (signerToYaml s) = some s := by
  obtain ⟨a, b⟩ := s
  simp [signerFromYaml, signerToYaml, reqStr, lookupKV]

theorem sigCompFromYaml_toYaml (s : SignatureComponent) :
    sigCompFromYaml (sigCompToYaml s) = some s := by
  obtain ⟨a, b⟩ := s
  simp [sigCompFromYaml, sigCompToYaml, reqStr, lookupKV]

theorem proofFromYaml_toYaml (p : ProofEntry) : proofFromYaml (proofToYaml p) = some p := by
  obtain ⟨a, b, c, d, e⟩ := p
  simp [proofFromYaml, proofToYaml, reqStr, reqSeq, lookupKV, signerFromYaml_toYaml,
    parseAll_map_some sigCompFromYaml sigCompToYaml sigCompFromYaml_toYaml]

theorem consequenceFromYaml_toYaml (c : Consequence) :
    consequenceFromYaml (consequenceToYaml c) = some c := by
  obtain ⟨a, b⟩ := c
  simp [consequenceFromYaml, consequenceToYaml, reqStr, lookupKV]

theorem strFromYaml_str (s : String) : strFromYaml (Yaml.str s) = some s := rfl

theorem contractFromYaml_toYaml (c : Contract) :
    contractFromYaml (contractToYaml c) = some c := by
  obtain ⟨a, b, d, e, f⟩ := c
  simp [contractFromYaml, contractToYaml, reqStr, reqSeq, lookupKV, consequenceFromYaml_toYaml,
    parseAll_map_some strFromYaml Yaml.str strFromYaml_str]

theorem repEventFromYaml_toYaml (e : ReputationEvent) :
    repEventFromYaml (repEventToYaml e) = some e := by
  obtain ⟨a, b, c⟩ := e
  simp [repEventFromYaml, repEventToYaml, reqStr, reqInt, lookupKV]

theorem reputationFromYaml_toYaml (r : Reputation) :
    reputationFromYaml (reputationToYaml r) = some r := by
  obtain ⟨a, b, c⟩ := r
  simp [reputationFromYaml, reputationToYaml, reqStr, reqInt, reqSeq, lookupKV,
    parseAll_map_some repEventFromYaml repEventToYaml repEventFromYaml_toYaml]

theorem consentFromYaml_toYaml (c : Consent) : consentFromYaml (consentToYaml c) = some c := by
  obtain ⟨a, b, d, e⟩ := c
  simp [consentFromYaml, consentToYaml, reqStr, reqSeq, lookupKV,
    parseAll_map_some strFromYaml Yaml.str strFromYaml_str]

theorem fromYaml_toYaml (d : Identity) : fromYaml (toYaml d) = some d := by
  obtain ⟨ib, sb, cb, cr, pr, co, re, cs⟩ := d
  cases cr <;> cases pr <;> cases co <;> cases re <;> cases cs <;>
    simp [fromYaml, toYaml, lookupKV, defSeq, parseAll,
      identityBlockFromYaml_toYaml, systemBlockFromYaml_toYaml, coreBlockFromYaml_toYaml,
      credentialFromYaml_toYaml, proofFromYaml_toYaml, contractFromYaml_toYaml,
      reputationFromYaml_toYaml, consentFromYaml_toYaml,
      parseAll_map_some credentialFromYaml credentialToYaml credentialFromYaml_toYaml,
      parseAll_map_some proofFromYaml proofToYaml proofFromYaml_toYaml,
      parseAll_map_some contractFromYaml contractToYaml contractFromYaml_toYaml,
      parseAll_map_some reputationFromYaml reputationToYaml reputationFromYaml_toYaml,
      parseAll_map_some consentFromYaml consentToYaml consentFromYaml_toYaml]

theorem lookupKV_middle (pre post : List (String × Yaml)) (k n : String) (v : Yaml)
    (h : n ≠ k) : lookupKV (pre ++ (k, v) :: post) n = lookupKV (pre ++ post) n := by
  induction pre with
  | nil => simp [lookupKV, Ne.symm h]
  | cons p ps ih =>
    obtain ⟨a, b⟩ := p
    simp only [List.cons_append, lookupKV]
    split <;> simp [ih]

theorem set_immutable_of_parse (d : Identity) (path x now : String) (segs : List Segment)
    (hp : parsePath path = some segs)
    (hr : setRaw d segs x = Except.error SetError.immutableField) :
    set d path x now = Except.error SetError.immutableField := by
  unfold set
  rw [hp]
  simp only [hr]

/-! ### Claim theorems -/

/-- C1: the id produced at construction is
`"idp:key:sha256:" ++ base64(sha256(utf8(base64(root_public_key_bytes))))`,
hashing the encoded public-key string, and it is a pure function of the
encoded public key: identical encoded input gives identical id whatever
the other inputs are. -/
theorem C1_id_derivation (na ba nb bb : String) (ka kb pa pb : List Nat)
    (h : base64Encode pa = base64Encode pb) :
    (Identity.new na ba ka pa).1.identity.id =
      "idp:key:sha256:" ++ base64Encode (sha256 (utf8Encode (base64Encode pa))) ∧
    (Identity.new na ba ka pa).1.identity.id = (Identity.new nb bb kb pb).1.identity.id := by
  constructor
  · rfl
  · show "idp:key:sha256:" ++ base64Encode (sha256 (utf8Encode (base64Encode pa))) =
      "idp:key:sha256:" ++ base64Encode (sha256 (utf8Encode (base64Encode pb)))
    rw [h]

theorem C1_id_derivation_witness :
    base64Encode [0] = base64Encode [0] ∧
    ((Identity.new "Alice" "Builder" [1] [0]).1.identity.id =
      "idp:key:sha256:" ++ base64Encode (sha256 (utf8Encode (base64Encode [0]))) ∧
    (Identity.new "Alice" "Builder" [1] [0]).1.identity.id =
      (Identity.new "Bob" "Critic" [2] [0]).1.identity.id) :=
  ⟨rfl, C1_id_derivation "Alice" "Builder" "Bob" "Critic" [1] [2] [0] [0] rfl⟩

/-- C2: construction yields a document whose id has the protocol prefix,
with exactly one public key that is active Ed25519, all five
trust-artifact sequences empty, and equal timestamps. -/
theorem C2_initial_document_shape (name bio : String) (pk8 pub : List Nat) :
    (∃ rest, (Identity.new name bio pk8 pub).1.identity.id = "idp:key:sha256:" ++ rest) ∧
    (∃ k, (Identity.new name bio pk8 pub).1.system.public_keys = [k] ∧
      k.status = "active" ∧ k.algorithm = "Ed25519") ∧
    (Identity.new name bio pk8 pub).1.credentials = [] ∧
    (Identity.new name bio pk8 pub).1.proofs = [] ∧
    (Identity.new name bio pk8 pub).1.contracts = [] ∧
    (Identity.new name bio pk8 pub).1.reputation = [] ∧
    (Identity.new name bio pk8 pub).1.consent = [] ∧
    (Identity.new name bio pk8 pub).1.identity.created_at =
      (Identity.new name bio pk8 pub).1.identity.updated_at :=
  ⟨⟨_, rfl⟩, ⟨_, rfl, rfl, rfl⟩, rfl, rfl, rfl, rfl, rfl, rfl⟩

set_option linter.unusedVariables false in
/-- C3: on documents satisfying the validator's invariants, deserializing
the serialization returns the same document (and the load path returns it
as a success). -/
theorem C3_serialization_roundtrip (d : Identity) (h : validate d = []) :
    fromYaml (toYaml d) = some d ∧ loadModel (toYaml d) = Except.ok d := by
  have hr := fromYaml_toYaml d
  exact ⟨hr, by simp [loadModel, hr]⟩

set_option maxRecDepth 100000 in
theorem C3_serialization_roundtrip_witness :
    validate wdoc = [] ∧
    (fromYaml (toYaml wdoc) = some wdoc ∧ loadModel (toYaml wdoc) = Except.ok wdoc) :=
  ⟨by decide, C3_serialization_roundtrip wdoc (by decide)⟩

/-- C4 (amended): load performs no validation — whenever deserialization
succeeds, the document is returned as-is, whatever invariants it
violates. -/
theorem C4_load_skips_validation (v : Yaml) (d : Identity) (h : fromYaml v = some d) :
    loadModel v = Except.ok d := by
  simp [loadModel, h]

theorem C4_load_skips_validation_witness :
    fromYaml badRepYaml = some badRepDoc ∧ loadModel badRepYaml = Except.ok badRepDoc :=
  ⟨by rfl, C4_load_skips_validation badRepYaml badRepDoc (by rfl)⟩

set_option maxRecDepth 100000 in
/-- C4 (counterexample): a document whose reputation value is 100 while
its history sums to 80 — violating exactly the reputation invariant — is
returned by load as a success, not as a `CorruptDocument` error. -/
theorem C4_counterexample :
    loadModel badRepYaml = Except.ok badRepDoc ∧
    validate badRepDoc = ["reputation value does not equal history sum: karma"] :=
  ⟨by rfl, by decide⟩

/-- C5 (amended): save performs exactly a create of the destination
followed by a write of the serialized document to the destination — no
temporary sibling file — so an interruption between the two leaves the
destination empty, while a completed save leaves the document there. -/
theorem C5_save_writes_destination_directly (d : Identity) (p : String)
    (fs : String → FileState) :
    saveEvents d p = [FsOp.create p, FsOp.write p (toYaml d)] ∧
    applyOps fs (List.take 1 (saveEvents d p)) p = FileState.empty ∧
    applyOps fs (saveEvents d p) p = FileState.content (toYaml d) := by
  refine ⟨rfl, ?_, ?_⟩ <;> simp [saveEvents, applyOps, applyOp]

/-- C5 (counterexample): with a prior document on disk, running only the
first operation of save (the truncating create) destroys the prior
contents: the destination is empty, not intact. -/
theorem C5_interruption_counterexample :
    saveEvents wdoc "my.idp" = [FsOp.create "my.idp", FsOp.write "my.idp" (toYaml wdoc)] ∧
    applyOps fsPrior (List.take 1 (saveEvents wdoc "my.idp")) "my.idp" = FileState.empty ∧
    fsPrior "my.idp" = FileState.content (Yaml.str "prior document") ∧
    FileState.empty ≠ FileState.content (Yaml.str "prior document") := by
  refine ⟨rfl, by simp [saveEvents, applyOps, applyOp, fsPrior], rfl, ?_⟩
  intro h
  exact FileState.noConfusion h

/-- C6: setting `identity.id` or `identity.created_at`, or anything under
`system.public_keys`, fails with `immutableField`; no mutated document is
produced, so the document is unchanged in memory and on disk. -/
theorem C6_protected_fields_immutable (d : Identity) (x now : String) :
    set d "identity.id" x now = Except.error SetError.immutableField ∧
    set d "identity.created_at" x now = Except.error SetError.immutableField ∧
    set d "system.public_keys[0].status" x now = Except.error SetError.immutableField ∧
    (∀ (idx : Option Nat) (rest : List Segment),
      setRaw d (⟨"system", none⟩ :: ⟨"public_keys", idx⟩ :: rest) x =
        Except.error SetError.immutableField) :=
  ⟨set_immutable_of_parse d _ x now [⟨"identity", none⟩, ⟨"id", none⟩] (by decide) rfl,
   set_immutable_of_parse d _ x now [⟨"identity", none⟩, ⟨"created_at", none⟩] (by decide) rfl,
   set_immutable_of_parse d _ x now [⟨"system", none⟩, ⟨"public_keys", some 0⟩, ⟨"status", none⟩]
     (by decide) rfl,
   fun idx rest => rfl⟩

/-- C7 (amended): deserialization is not strict — an unknown top-level
field anywhere in the mapping is ignored rather than rejected — while a
mapping carrying only the three required blocks parses with all five
trust-artifact sequences defaulted to empty. -/
theorem C7_lenient_schema :
    (∀ (pre post : List (String × Yaml)) (k : String) (v : Yaml), k ∉ topLevelKeys →
      fromYaml (Yaml.map (pre ++ (k, v) :: post)) = fromYaml (Yaml.map (pre ++ post))) ∧
    (∀ (ib sb cb : Yaml) (b1 : IdentityBlock) (b2 : SystemBlock) (b3 : CoreBlock),
      identityBlockFromYaml ib = some b1 → systemBlockFromYaml sb = some b2 →
      coreBlockFromYaml cb = some b3 →
      fromYaml (Yaml.map [("identity", ib), ("system", sb), ("core", cb)]) =
        some ⟨b1, b2, b3, [], [], [], [], []⟩) := by
  constructor
  · intro pre post k v hk
    have hne : ∀ n, n ∈ topLevelKeys → n ≠ k := by
      intro n hn hnk
      exact hk (hnk ▸ hn)
    simp only [fromYaml, defSeq]
    rw [lookupKV_middle pre post k "identity" v (hne "identity" (by simp [topLevelKeys])),
      lookupKV_middle pre post k "system" v (hne "system" (by simp [topLevelKeys])),
      lookupKV_middle pre post k "core" v (hne "core" (by simp [topLevelKeys])),
      lookupKV_middle pre post k "credentials" v (hne "credentials" (by simp [topLevelKeys])),
      lookupKV_middle pre post k "proofs" v (hne "proofs" (by simp [topLevelKeys])),
      lookupKV_middle pre post k "contracts" v (hne "contracts" (by simp [topLevelKeys])),
      lookupKV_middle pre post k "reputation" v (hne "reputation" (by simp [topLevelKeys])),
      lookupKV_middle pre post k "consent" v (hne "consent" (by simp [topLevelKeys]))]
  · intro ib sb cb b1 b2 b3 h1 h2 h3
    simp [fromYaml, lookupKV, defSeq, h1, h2, h3]

theorem C7_lenient_schema_witness :
    ("unknown_field" ∉ topLevelKeys ∧
      fromYaml (Yaml.map (minEntries ++ ("unknown_field", Yaml.str "surprise") :: [])) =
        fromYaml (Yaml.map (minEntries ++ []))) ∧
    (identityBlockFromYaml minIdentityYaml = some minDoc.identity ∧
      fromYaml (Yaml.map [("identity", minIdentityYaml), ("system", minSystemYaml),
        ("core", minCoreYaml)]) =
        some ⟨minDoc.identity, minDoc.system, minDoc.core, [], [], [], [], []⟩) :=
  ⟨⟨by decide,
    C7_lenient_schema.1 minEntries [] "unknown_field" (Yaml.str "surprise") (by decide)⟩,
   ⟨rfl, C7_lenient_schema.2 minIdentityYaml minSystemYaml minCoreYaml
     minDoc.identity minDoc.system minDoc.core rfl rfl rfl⟩⟩

/-- C7 (counterexample): an input carrying the unknown top-level field
`unknown_field` deserializes successfully instead of being rejected. -/
theorem C7_counterexample :
    fromYaml (Yaml.map (minEntries ++ [("unknown_field", Yaml.str "surprise")])) =
      some minDoc := by
  rfl

/-- C8: the document returned by construction does not depend on the
private-key bytes (only on the encoded public key, the name and the bio),
neither does its serialization, and the private key is returned as a
separate value, not stored in any document field. -/
theorem C8_private_key_never_in_document (name bio : String) (k1 k2 pub : List Nat) :
    (Identity.new name bio k1 pub).1 = (Identity.new name bio k2 pub).1 ∧
    toYaml (Identity.new name bio k1 pub).1 = toYaml (Identity.new name bio k2 pub).1 ∧
    (Identity.new name bio k1 pub).2 = k1 :=
  ⟨rfl, rfl, rfl⟩

/-- C9: serialization emits the top-level keys in the fixed canonical
order, with exactly the empty trust-artifact sequences omitted; the key
list is always a sublist of the canonical order. -/
theorem C9_canonical_field_order (d : Identity) :
    yamlKeys (toYaml d) =
      ["identity", "system", "core"] ++
      (if d.credentials.isEmpty then [] else ["credentials"]) ++
      (if d.proofs.isEmpty then [] else ["proofs"]) ++
      (if d.contracts.isEmpty then [] else ["contracts"]) ++
      (if d.reputation.isEmpty then [] else ["reputation"]) ++
      (if d.consent.isEmpty then [] else ["consent"]) ∧
    List.Sublist (yamlKeys (toYaml d)) topLevelKeys := by
  obtain ⟨ib, sb, cb, cr, pr, co, re, cs⟩ := d
  cases cr <;> cases pr <;> cases co <;> cases re <;> cases cs <;>
    refine ⟨by simp [toYaml, yamlKeys], ?_⟩ <;>
    (simp [toYaml, yamlKeys, topLevelKeys]) <;> decide

/-- C10: the constructor stamps both timestamps with the constant
placeholder string, independent of inputs and of any clock. -/
theorem C10_constant_timestamps (name bio : String) (pk8 pub : List Nat) :
    (Identity.new name bio pk8 pub).1.identity.created_at = "2024-01-01T00:00:00Z" ∧
    (Identity.new name bio pk8 pub).1.identity.updated_at = "2024-01-01T00:00:00Z" :=
  ⟨rfl, rfl⟩

end Idp
